import Mathlib

/-!
Shallow embedding of the MAGASIN temporal tracking and validation engine
(`ai/temporal_detection.py`), the camera supervisor
(`workers/multi_camera_manager.py`) and the notification broadcaster
(`server.py`), with theorems checking the specification's claims.

Python `datetime` values are modelled as rationals (seconds since an
arbitrary epoch); `timedelta.total_seconds()` is then plain subtraction.
Python `float` confidences are modelled as rationals.  Python dicts
(insertion ordered) are modelled as association lists with in-place
update of existing keys.  Python `None` is `Option.none`.
-/

namespace Magasin

/-! ### Association lists (Python dict semantics) -/

/-- Dict lookup: first (and by the no-duplicate-keys discipline, only)
binding of the key. -/
def lookupA {α β : Type} [DecidableEq α] (k : α) : List (α × β) → Option β
  | [] => none
  | (k', v) :: rest => if k' = k then some v else lookupA k rest

/-- Dict write `d[k] = v`: replace the binding in place when the key is
present, append it otherwise (Python insertion order). -/
def upsertA {α β : Type} [DecidableEq α] (k : α) (v : β) : List (α × β) → List (α × β)
  | [] => [(k, v)]
  | (k', v') :: rest => if k' = k then (k, v) :: rest else (k', v') :: upsertA k v rest

/-- Dict deletion `del d[k]`: drop the binding of the key. -/
def eraseA {α β : Type} [DecidableEq α] (k : α) : List (α × β) → List (α × β)
  | [] => []
  | (k', v') :: rest => if k' = k then rest else (k', v') :: eraseA k rest

/-! ### Data model (`ai/temporal_detection.py`) -/

/-- Enum `TrackingStatus`. -/
inductive TrackingStatus : Type where
  | TRACKING
  | STABLE
  | PENDING_VALIDATION
  | VALIDATED
  | REJECTED
deriving DecidableEq, Repr

/-- Dataclass `DetectionEvent`. -/
structure DetectionEvent : Type where
  object_type : String
  camera_id : String
  confidence : ℚ
  timestamp : ℚ
  bbox_coords : ℚ × ℚ × ℚ × ℚ
  tracking_id : Option String := none
deriving DecidableEq, Repr

/-- Dataclass `TemporalTracking`. -/
structure TemporalTracking : Type where
  object_type : String
  camera_id : String
  first_seen : ℚ
  last_seen : ℚ
  detection_count : ℤ := 0
  total_confidence : ℚ := 0
  avg_confidence : ℚ := 0
  status : TrackingStatus := .TRACKING
  stability_threshold_minutes : ℤ := 60
  detected_quantity : ℤ := 0
  detection_events : List DetectionEvent := []
deriving DecidableEq, Repr

namespace TemporalTracking

/-- Method `TemporalTracking.update_confidence`. -/
def update_confidence (t : TemporalTracking) (confidence : ℚ) : TemporalTracking :=
  let total := t.total_confidence + confidence
  let count := t.detection_count + 1
  { t with
    total_confidence := total
    detection_count := count
    avg_confidence := total / (count : ℚ) }

/-- Method `TemporalTracking.get_duration_minutes`. -/
def get_duration_minutes (t : TemporalTracking) : ℚ :=
  (t.last_seen - t.first_seen) / 60

/-- Method `TemporalTracking.is_stable`. -/
def is_stable (t : TemporalTracking) : Bool :=
  t.get_duration_minutes ≥ (t.stability_threshold_minutes : ℚ)

end TemporalTracking

/-- A pending-validation record: the dict built by
`create_validation_request` (its keys become these fields). -/
structure Validation : Type where
  id : String
  object_type : String
  camera_ids : List String
  quantity_delta : ℤ
  current_quantity : ℤ
  proposed_quantity : ℤ
  avg_confidence : ℚ
  detection_duration_minutes : ℚ
  status : String
  created_at : ℚ
  alert_sent_at : Option ℚ := none
  validated_at : Option ℚ := none
  validated_by : Option String := none
  rejection_reason : Option String := none
deriving DecidableEq, Repr

/-- Outcome of the persistence call made inside `approve_validation` /
`reject_validation`: the surrounding `try`/`except` distinguishes only
whether the call raised; when it returns normally it returns a boolean
(`ValidationService.approve_request` returns `False` on a failed
database write instead of raising) which the engine discards. -/
inductive PersistOutcome : Type where
  | raised
  | returned (ok : Bool)
deriving DecidableEq, Repr

/-- Class `TemporalDetectionEngine`: the mutable state of its fields.
The callback hooks are side-effect only and carry no engine state. -/
structure TemporalDetectionEngine : Type where
  stability_duration_minutes : ℤ := 60
  confidence_threshold : ℚ := 3 / 5
  alert_delay_hours : ℤ := 3
  active_trackings : List ((String × String) × TemporalTracking) := []
  validated_stock : List (String × ℤ) := []
  pending_validations : List (String × Validation) := []
deriving DecidableEq, Repr

namespace TemporalDetectionEngine

/-- The fresh `TemporalTracking(...)` built by `process_detection` for a
previously-unseen key (creation sets first-seen = last-seen = timestamp
and copies the engine's configured stability duration). -/
def new_tracking (object_type camera_id : String) (timestamp : ℚ)
    (threshold : ℤ) : TemporalTracking :=
  { object_type := object_type
    camera_id := camera_id
    first_seen := timestamp
    last_seen := timestamp
    stability_threshold_minutes := threshold }

/-- Method `process_detection`.  `now` stands for `datetime.now()`, used
only when no timestamp is supplied.  Returns the Python return value
(`None`, `"stable"` or `"tracking"`) together with the post state. -/
def process_detection (e : TemporalDetectionEngine)
    (object_type camera_id : String) (confidence : ℚ)
    (bbox_coords : ℚ × ℚ × ℚ × ℚ) (timestamp : Option ℚ)
    (tracking_id : Option String) (now : ℚ) :
    Option String × TemporalDetectionEngine :=
  if confidence < e.confidence_threshold then (none, e)
  else
    let ts := timestamp.getD now
    let event : DetectionEvent :=
      { object_type := object_type, camera_id := camera_id,
        confidence := confidence, timestamp := ts,
        bbox_coords := bbox_coords, tracking_id := tracking_id }
    let key := (object_type, camera_id)
    let t0 :=
      match lookupA key e.active_trackings with
      | none => new_tracking object_type camera_id ts e.stability_duration_minutes
      | some t => t
    let t1 := { t0 with last_seen := ts }
    let t2 := t1.update_confidence confidence
    let t3 := { t2 with detection_events := t2.detection_events ++ [event] }
    if t3.status = .TRACKING ∧ t3.is_stable then
      (some "stable",
        { e with active_trackings :=
            upsertA key { t3 with status := .STABLE } e.active_trackings })
    else
      (some "tracking",
        { e with active_trackings := upsertA key t3 e.active_trackings })

/-- The tracking `process_detection` selects for the key before the
per-event updates: the stored tracking when the key is known, the
freshly created one otherwise. -/
def pre_tracking (e : TemporalDetectionEngine)
    (object_type camera_id : String) (ts : ℚ) : TemporalTracking :=
  match lookupA (object_type, camera_id) e.active_trackings with
  | none => new_tracking object_type camera_id ts e.stability_duration_minutes
  | some t => t

/-- The test `if camera_id and cam_id != camera_id: continue`: the
iteration skips a tracking exactly when the optional camera filter is
truthy (present and non-empty, Python string truthiness) and differs
from the tracking's camera. -/
def cam_filter_blocks (camera_id : Option String) (cam : String) : Bool :=
  match camera_id with
  | none => false
  | some c => c ≠ "" && cam ≠ c

/-- The list comprehension inside `count_stable_objects`: events of the
tracking whose age relative to the tracking's last-seen is at most the
engine's stability duration. -/
def window_count (stability_duration_minutes : ℤ) (t : TemporalTracking) : ℕ :=
  (t.detection_events.filter
    (fun ev => (t.last_seen - ev.timestamp) / 60 ≤ (stability_duration_minutes : ℚ))).length

/-- Method `count_stable_objects`: the loop over `active_trackings`
with its `continue` tests, accumulating window counts. -/
def count_stable_objects (e : TemporalDetectionEngine)
    (object_type : String) (camera_id : Option String) : ℕ :=
  e.active_trackings.foldl
    (fun count p =>
      if p.1.1 ≠ object_type then count
      else if cam_filter_blocks camera_id p.1.2 then count
      else if p.2.status = .STABLE ∨ p.2.status = .PENDING_VALIDATION then
        count + window_count e.stability_duration_minutes p.2
      else count)
    0

/-- Method `calculate_stock_delta`. -/
def calculate_stock_delta (e : TemporalDetectionEngine)
    (object_type : String) (camera_id : Option String) : ℤ × ℤ × ℤ :=
  let current_validated := (lookupA object_type e.validated_stock).getD 0
  let detected_stable : ℤ := count_stable_objects e object_type camera_id
  (current_validated, detected_stable, detected_stable - current_validated)

/-- Method `create_validation_request`.  `now` stands for the
`datetime.now()` calls (identifier generation and `created_at`); the
database persistence attempt is wrapped in `try`/`except` whose failure
is only logged, so it has no effect on the engine state and is not
modelled.  Returns the built validation dict (or `None`) and the post
state. -/
def create_validation_request (e : TemporalDetectionEngine)
    (object_type : String) (camera_id : Option String) (now : ℚ) :
    Option Validation × TemporalDetectionEngine :=
  let r := calculate_stock_delta e object_type camera_id
  if r.2.2 = 0 then (none, e)
  else
    let pick := fun (p : (String × String) × TemporalTracking) =>
      p.1.1 = object_type ∧ ¬cam_filter_blocks camera_id p.1.2 ∧
        p.2.status = .STABLE
    let trackings := (e.active_trackings.filter (fun p => pick p)).map (·.2)
    if trackings.isEmpty then (none, e)
    else
      let avg_confidence :=
        (trackings.map (·.avg_confidence)).sum / (trackings.length : ℚ)
      let validation_id := "VAL-" ++ object_type ++ "-" ++ toString now
      let max_duration :=
        match trackings.map TemporalTracking.get_duration_minutes with
        | [] => 0
        | d :: ds => ds.foldl max d
      let v : Validation :=
        { id := validation_id
          object_type := object_type
          camera_ids := (trackings.map (·.camera_id)).dedup
          quantity_delta := r.2.2
          current_quantity := r.1
          proposed_quantity := r.2.1
          avg_confidence := avg_confidence
          detection_duration_minutes := max_duration
          status := "pending"
          created_at := now }
      let e1 := { e with
        pending_validations := upsertA validation_id v e.pending_validations }
      let e2 := { e1 with
        active_trackings := e1.active_trackings.map (fun p =>
          if pick p then (p.1, { p.2 with status := .PENDING_VALIDATION })
          else p) }
      (some v, e2)

/-- Method `approve_validation`.  The boolean inside
`PersistOutcome.returned` is the value `ValidationService.approve_request`
returned; the source discards it, so both `returned true` and
`returned false` fall through to the in-memory updates — only `raised`
hits the `except` branch that returns `False`. -/
def approve_validation (e : TemporalDetectionEngine)
    (validation_id admin_id : String) (persist : PersistOutcome) (now : ℚ) :
    Bool × TemporalDetectionEngine :=
  match lookupA validation_id e.pending_validations with
  | none => (false, e)
  | some validation =>
    if validation.status ≠ "pending" then (false, e)
    else
      match persist with
      | .raised => (false, e)
      | .returned _ =>
        let object_type := validation.object_type
        let e1 := { e with
          validated_stock :=
            upsertA object_type validation.proposed_quantity e.validated_stock }
        let v' := { validation with
          status := "approved"
          validated_at := some now
          validated_by := some admin_id }
        let e2 := { e1 with
          pending_validations := upsertA validation_id v' e1.pending_validations }
        let e3 := { e2 with
          active_trackings := e2.active_trackings.map (fun p =>
            if p.1.1 = object_type ∧ p.2.status = .PENDING_VALIDATION then
              (p.1, { p.2 with status := .VALIDATED })
            else p) }
        (true, e3)

/-- Method `reject_validation`.  On success every tracking of the
request's object type in status `PENDING_VALIDATION` is set to
`REJECTED` with its event log cleared, first/last-seen reset to `now`
and its counters zeroed. -/
def reject_validation (e : TemporalDetectionEngine)
    (validation_id admin_id reason : String) (persist : PersistOutcome)
    (now : ℚ) : Bool × TemporalDetectionEngine :=
  match lookupA validation_id e.pending_validations with
  | none => (false, e)
  | some validation =>
    if validation.status ≠ "pending" then (false, e)
    else
      match persist with
      | .raised => (false, e)
      | .returned _ =>
        let v' := { validation with
          status := "rejected"
          validated_at := some now
          validated_by := some admin_id
          rejection_reason := some reason }
        let e1 := { e with
          pending_validations := upsertA validation_id v' e.pending_validations }
        let object_type := validation.object_type
        let e2 := { e1 with
          active_trackings := e1.active_trackings.map (fun p =>
            if p.1.1 = object_type ∧ p.2.status = .PENDING_VALIDATION then
              (p.1,
                { p.2 with
                  status := .REJECTED
                  detection_events := []
                  first_seen := now
                  last_seen := now
                  detection_count := 0
                  total_confidence := 0
                  avg_confidence := 0 })
            else p) }
        (true, e2)

/-- The alert test inside the `check_alerts` loop: request still
pending, alert not yet sent, and at least `alert_delay_hours` hours
elapsed since creation. -/
def alert_due (alert_delay_hours : ℤ) (now : ℚ) (v : Validation) : Bool :=
  v.status = "pending" && v.alert_sent_at = none &&
    (now - v.created_at) / 3600 ≥ (alert_delay_hours : ℚ)

/-- Method `check_alerts`.  `now` stands for `datetime.now()`.  The loop
marks every due request's `alert_sent_at` and collects it. -/
def check_alerts (e : TemporalDetectionEngine) (now : ℚ) :
    List Validation × TemporalDetectionEngine :=
  let alerts := e.pending_validations.filterMap (fun p =>
    if alert_due e.alert_delay_hours now p.2 then
      some { p.2 with alert_sent_at := some now }
    else none)
  let e' := { e with
    pending_validations := e.pending_validations.map (fun p =>
      if alert_due e.alert_delay_hours now p.2 then
        (p.1, { p.2 with alert_sent_at := some now })
      else p) }
  (alerts, e')

/-- The call-level embedding of `count_stable_objects`: the method body
performs no assignment to any engine field, so the post state of the
call is the input state. -/
def count_stable_objects_run (e : TemporalDetectionEngine)
    (object_type : String) (camera_id : Option String) :
    ℕ × TemporalDetectionEngine :=
  (count_stable_objects e object_type camera_id, e)

/-- The call-level embedding of `calculate_stock_delta`: likewise a
pure read of `validated_stock` and `count_stable_objects`. -/
def calculate_stock_delta_run (e : TemporalDetectionEngine)
    (object_type : String) (camera_id : Option String) :
    (ℤ × ℤ × ℤ) × TemporalDetectionEngine :=
  (calculate_stock_delta e object_type camera_id, e)

end TemporalDetectionEngine

/-- One call to a `TemporalDetectionEngine` method, with every external
input (timestamps, persistence outcomes) made explicit. -/
inductive EngineOp : Type where
  | detect (object_type camera_id : String) (confidence : ℚ)
      (bbox_coords : ℚ × ℚ × ℚ × ℚ) (timestamp : Option ℚ)
      (tracking_id : Option String) (now : ℚ)
  | createRequest (object_type : String) (camera_id : Option String) (now : ℚ)
  | approve (validation_id admin_id : String) (persist : PersistOutcome) (now : ℚ)
  | reject (validation_id admin_id reason : String) (persist : PersistOutcome) (now : ℚ)
  | alerts (now : ℚ)
  | countQuery (object_type : String) (camera_id : Option String)
  | deltaQuery (object_type : String) (camera_id : Option String)

/-- The engine state after one method call.  `count_stable_objects` and
`calculate_stock_delta` contain no assignment to any engine field, so
the embedded call leaves the state as it was. -/
def applyOp (e : TemporalDetectionEngine) : EngineOp → TemporalDetectionEngine
  | .detect ot cam conf bbox ts tid now =>
      (e.process_detection ot cam conf bbox ts tid now).2
  | .createRequest ot cam now => (e.create_validation_request ot cam now).2
  | .approve vid admin persist now =>
      (e.approve_validation vid admin persist now).2
  | .reject vid admin reason persist now =>
      (e.reject_validation vid admin reason persist now).2
  | .alerts now => (e.check_alerts now).2
  | .countQuery ot cam => (TemporalDetectionEngine.count_stable_objects_run e ot cam).2
  | .deltaQuery ot cam => (TemporalDetectionEngine.calculate_stock_delta_run e ot cam).2

/-! ### Camera supervisor (`workers/multi_camera_manager.py`) -/

/-- Dataclass `CameraConfig`. -/
structure CameraConfig : Type where
  camera_id : String
  source : String
  zone_id : String
  zone_name : String
  roi_coords : Option (List (List ℤ)) := none
  fps : ℤ := 15
  enabled : Bool := true
deriving DecidableEq, Repr

/-- Dataclass `Zone` of the camera manager. -/
structure Zone : Type where
  zone_id : String
  name : String
  camera_id : String
  equipment_type : Option String := none
  roi_coords : Option (List (List ℤ)) := none
deriving DecidableEq, Repr

/-- An `AsyncVideoWorker` as the manager sees it: its camera and
whether it is running (`stop()` clears the flag). -/
structure VideoWorker : Type where
  camera_id : String
  running : Bool := true
deriving DecidableEq, Repr

/-- Class `MultiCameraManager`: its dictionaries. -/
structure MultiCameraManager : Type where
  cameras : List (String × VideoWorker) := []
  zones : List (String × Zone) := []
  camera_configs : List (String × CameraConfig) := []
  running : Bool := false
deriving DecidableEq, Repr

namespace MultiCameraManager

/-- Method `remove_camera`.  Mirrors the source statement by statement:
the worker is stopped and both dictionary entries deleted; only then is
`config` fetched with `self.camera_configs.get(camera_id)` — from the
dictionary the entry was just deleted from, so `config` is `None` and
the zone-cleanup branch below it never executes. -/
def remove_camera (m : MultiCameraManager) (camera_id : String) :
    Bool × MultiCameraManager :=
  match lookupA camera_id m.cameras with
  | none => (false, m)
  | some _ =>
    let cameras' := eraseA camera_id m.cameras
    let camera_configs' := eraseA camera_id m.camera_configs
    let config := lookupA camera_id camera_configs'
    let zones' :=
      match config with
      | some cfg =>
        if (lookupA cfg.zone_id m.zones).isSome then
          let other_cameras := (camera_configs'.map (·.2)).filter
            (fun c => c.zone_id = cfg.zone_id ∧ c.camera_id ≠ camera_id)
          if other_cameras.isEmpty then eraseA cfg.zone_id m.zones else m.zones
        else m.zones
      | none => m.zones
    (true, { m with
      cameras := cameras'
      camera_configs := camera_configs'
      zones := zones' })

end MultiCameraManager

/-! ### Notification broadcaster (`server.py`, `NotificationManager`) -/

/-- One `connection.send_text` call: whether it raises is determined by
the subscriber (the `fails` oracle). -/
def send_text (fails : String → Bool) (c : String) : Except String Unit :=
  if fails c then Except.error "send failed" else Except.ok ()

/-- The `for connection in self.active_connections` loop of
`broadcast`: each send is attempted, an exception is caught and the
subscriber recorded as disconnected; no exception escapes.  Returns the
subscribers that received the message and the `disconnected` set. -/
def broadcast_loop (fails : String → Bool) : List String → List String × List String
  | [] => ([], [])
  | c :: rest =>
    let r := broadcast_loop fails rest
    match send_text fails c with
    | .ok _ => (c :: r.1, r.2)
    | .error _ => (r.1, c :: r.2)

/-- Method `NotificationManager.broadcast` over a set of subscriber
handles (modelled as a duplicate-free list): early return when there is
no subscriber, otherwise run the send loop and then remove every
disconnected subscriber from the set. -/
def broadcast (active_connections : List String) (fails : String → Bool) :
    List String × List String :=
  if active_connections.isEmpty then ([], active_connections)
  else
    let r := broadcast_loop fails active_connections
    (r.1, r.2.foldl (fun l c => l.erase c) active_connections)

/-- The count as the claim words it, for comparison with
`count_stable_objects`: a tracking matches only when its camera equals
the given camera id whenever one is given — including the empty
string. -/
def count_stable_objects_claimed (e : TemporalDetectionEngine)
    (object_type : String) (camera_id : Option String) : ℕ :=
  ((e.active_trackings.filter (fun p =>
      (p.1.1 == object_type) &&
      (camera_id.all (fun c => p.1.2 == c)) &&
      ((p.2.status == TrackingStatus.STABLE) ||
        (p.2.status == TrackingStatus.PENDING_VALIDATION)))).map
    (fun p => TemporalDetectionEngine.window_count e.stability_duration_minutes p.2)).sum

/-- A sequence of periodic `check_alerts` calls (the external
scheduler): the concatenation of everything they return. -/
def check_alerts_seq : TemporalDetectionEngine → List ℚ → List Validation
  | _, [] => []
  | e, t :: ts =>
    (e.check_alerts t).1 ++ check_alerts_seq (e.check_alerts t).2 ts

/-- The transitions of the per-key status state machine
`TRACKING → STABLE → PENDING_VALIDATION → {VALIDATED, REJECTED}`
(staying put always allowed). -/
def allowed_transition (a b : TrackingStatus) : Prop :=
  b = a ∨
    (a = .TRACKING ∧ b = .STABLE) ∨
    (a = .STABLE ∧ b = .PENDING_VALIDATION) ∨
    (a = .PENDING_VALIDATION ∧ (b = .VALIDATED ∨ b = .REJECTED))

/-! ### Concrete sample states -/

/-- A freshly constructed engine (all constructor defaults:
stability 60 minutes, confidence threshold 0.60, alert delay 3 hours). -/
def engine0 : TemporalDetectionEngine := {}

/-- A tracking of `souris` on `cam1` still in status `TRACKING`,
started at time 0. -/
def tracking_initial : TemporalTracking :=
  { object_type := "souris"
    camera_id := "cam1"
    first_seen := 0
    last_seen := 0
    detection_count := 1
    total_confidence := 1
    avg_confidence := 1
    status := .TRACKING
    detection_events :=
      [{ object_type := "souris", camera_id := "cam1", confidence := 1,
         timestamp := 0, bbox_coords := (0, 0, 1, 1) }] }

/-- An engine with the single in-progress tracking `tracking_initial`. -/
def engine1 : TemporalDetectionEngine :=
  { active_trackings := [(("souris", "cam1"), tracking_initial)] }

/-- A stable tracking of `souris` on `cam1` holding one recent
detection event. -/
def tracking_stable1 : TemporalTracking :=
  { object_type := "souris"
    camera_id := "cam1"
    first_seen := 0
    last_seen := 3600
    detection_count := 1
    total_confidence := 4 / 5
    avg_confidence := 4 / 5
    status := .STABLE
    detection_events :=
      [{ object_type := "souris", camera_id := "cam1", confidence := 4 / 5,
         timestamp := 3600, bbox_coords := (0, 0, 1, 1) }] }

/-- An engine with the single stable tracking `tracking_stable1`. -/
def engine4 : TemporalDetectionEngine :=
  { active_trackings := [(("souris", "cam1"), tracking_stable1)] }

/-- A tracking of `souris` on `cam1` awaiting validation. -/
def tracking_pending1 : TemporalTracking :=
  { tracking_stable1 with status := .PENDING_VALIDATION }

/-- A pending validation request proposing quantity 5 for `souris`. -/
def val_pending1 : Validation :=
  { id := "VAL-souris-1"
    object_type := "souris"
    camera_ids := ["cam1"]
    quantity_delta := 5
    current_quantity := 0
    proposed_quantity := 5
    avg_confidence := 4 / 5
    detection_duration_minutes := 60
    status := "pending"
    created_at := 0 }

/-- An engine holding one pending validation request for `souris` and
the matching tracking in status `PENDING_VALIDATION`. -/
def engine3 : TemporalDetectionEngine :=
  { active_trackings := [(("souris", "cam1"), tracking_pending1)]
    pending_validations := [("VAL-souris-1", val_pending1)] }

/-- The state of `engine3` after its pending request is rejected at
time 100. -/
def engine_rejected : TemporalDetectionEngine :=
  (engine3.reject_validation "VAL-souris-1" "admin" "why" (.returned true) 100).2

/-- A manager owning one camera `CAM1` whose configuration references
zone `Z1`; no other camera references that zone. -/
def manager1 : MultiCameraManager :=
  { cameras := [("CAM1", { camera_id := "CAM1" })]
    zones := [("Z1", { zone_id := "Z1", name := "Zone 1", camera_id := "CAM1" })]
    camera_configs :=
      [("CAM1",
        { camera_id := "CAM1", source := "rtsp://example/1",
          zone_id := "Z1", zone_name := "Zone 1" })] }

/-! ### Association-list lemmas -/

theorem lookupA_upsertA_self {α β : Type} [DecidableEq α] (k : α) (v : β) :
    ∀ l : List (α × β), lookupA k (upsertA k v l) = some v
  | [] => by simp [lookupA, upsertA]
  | (k', v') :: rest => by
    by_cases h : k' = k
    · simp [lookupA, upsertA, h]
    · simp [lookupA, upsertA, h, lookupA_upsertA_self k v rest]

theorem lookupA_upsertA_ne {α β : Type} [DecidableEq α] {k k' : α} (v : β)
    (h : k' ≠ k) : ∀ l : List (α × β), lookupA k (upsertA k' v l) = lookupA k l
  | [] => by simp [lookupA, upsertA, h]
  | (a, b) :: rest => by
    by_cases ha : a = k'
    · simp [lookupA, upsertA, ha, h]
    · simp only [lookupA, upsertA, if_neg ha]
      by_cases hk : a = k
      · simp [lookupA, hk]
      · simp [lookupA, hk, lookupA_upsertA_ne v h rest]

theorem lookupA_map {α β : Type} [DecidableEq α] (g : α → β → β) :
    ∀ (l : List (α × β)) (k : α),
      lookupA k (l.map (fun p => (p.1, g p.1 p.2))) = (lookupA k l).map (g k)
  | [], _ => rfl
  | (a, b) :: rest, k => by
    by_cases h : a = k
    · subst h; simp [lookupA]
    · simp [lookupA, h, lookupA_map g rest k]

theorem lookupA_map_ite {α β : Type} [DecidableEq α]
    (c : α → β → Prop) [∀ a b, Decidable (c a b)] (g : α → β → β)
    (l : List (α × β)) (k : α) :
    lookupA k (l.map (fun p => if c p.1 p.2 then (p.1, g p.1 p.2) else p)) =
      (lookupA k l).map (fun v => if c k v then g k v else v) := by
  have he : (fun p : α × β => if c p.1 p.2 then (p.1, g p.1 p.2) else p) =
      (fun p : α × β => (p.1, if c p.1 p.2 then g p.1 p.2 else p.2)) := by
    funext p
    split <;> rfl
  rw [he, lookupA_map (fun a b => if c a b then g a b else b) l k]

theorem lookupA_eraseA_self {α β : Type} [DecidableEq α] (k : α) :
    ∀ l : List (α × β), (l.map Prod.fst).Nodup →
      lookupA k (eraseA k l) = none
  | [], _ => rfl
  | (a, b) :: rest, h => by
    have h1 : a ∉ rest.map Prod.fst := (List.nodup_cons.mp h).1
    have h2 : (rest.map Prod.fst).Nodup := (List.nodup_cons.mp h).2
    by_cases ha : a = k
    · subst ha
      simp only [eraseA, if_pos rfl]
      clear h h2
      induction rest with
      | nil => rfl
      | cons q qs ih =>
        have hq : q.1 ≠ a := by
          intro hc
          exact h1 (by simp [hc])
        simp only [lookupA, if_neg hq]
        exact ih (by
          intro hc
          exact h1 (by simp [hc]))
    · simp [eraseA, ha, lookupA, lookupA_eraseA_self k rest h2]

theorem lookupA_eraseA_ne {α β : Type} [DecidableEq α] {k k' : α} (h : k' ≠ k) :
    ∀ l : List (α × β), lookupA k (eraseA k' l) = lookupA k l
  | [] => rfl
  | (a, b) :: rest => by
    by_cases ha : a = k'
    · subst ha
      simp [eraseA, lookupA, h]
    · by_cases hk : a = k
      · subst hk
        simp [eraseA, lookupA, ha]
      · simp [eraseA, ha, lookupA, hk, lookupA_eraseA_ne h rest]

/-! ### Fold and sum lemmas -/

theorem foldl_add_eq_sum {α : Type} (f : α → ℕ) :
    ∀ (l : List α) (n : ℕ),
      l.foldl (fun acc x => acc + f x) n = n + (l.map f).sum
  | [], n => by simp
  | x :: l, n => by
    simp [foldl_add_eq_sum f l (n + f x), Nat.add_assoc]

theorem decide_eq_beq {α : Type} [DecidableEq α] [BEq α] [LawfulBEq α]
    (a b : α) : decide (a = b) = (a == b) := by
  by_cases h : a = b <;> simp [h]

theorem not_cam_filter_blocks (camf : Option String) (x : String) :
    (!(TemporalDetectionEngine.cam_filter_blocks camf x)) =
      camf.all (fun c => (c == "") || (x == c)) := by
  cases camf with
  | none => rfl
  | some c =>
    show (!(decide (c ≠ "") && decide (x ≠ c))) = ((c == "") || (x == c))
    by_cases h1 : c = "" <;> by_cases h2 : x = c <;> simp [h1, h2]

theorem sum_map_ite {α : Type} (q : α → Prop) [DecidablePred q] (f : α → ℕ) :
    ∀ l : List α,
      (l.map (fun x => if q x then f x else 0)).sum =
        ((l.filter (fun x => decide (q x))).map f).sum
  | [] => rfl
  | x :: l => by
    by_cases h : q x <;>
      simp [h, sum_map_ite q f l]

/-! ### Broadcast characterization -/

theorem broadcast_loop_eq (fails : String → Bool) :
    ∀ l : List String,
      broadcast_loop fails l = (l.filter (fun c => !(fails c)), l.filter fails)
  | [] => rfl
  | c :: rest => by
    cases h : fails c <;>
      simp [broadcast_loop, send_text, h, broadcast_loop_eq fails rest]

theorem foldl_erase_eq_filter :
    ∀ (ds l : List String), l.Nodup →
      ds.foldl (fun acc c => acc.erase c) l = l.filter (fun c => !(ds.contains c))
  | [], l, _ => by simp
  | d :: ds, l, hl => by
    rw [List.foldl_cons, foldl_erase_eq_filter ds (l.erase d) (hl.erase d),
      hl.erase_eq_filter d, List.filter_filter]
    apply List.filter_congr
    intro c _
    by_cases hcd : c = d
    · subst hcd; simp
    · simp [hcd, List.contains, List.elem_cons, bne]

/-! ### Status-transition lemmas (one per engine operation) -/

theorem process_detection_status (e : TemporalDetectionEngine)
    (ot cam : String) (conf : ℚ) (bbox : ℚ × ℚ × ℚ × ℚ)
    (tsOpt : Option ℚ) (tid : Option String) (now : ℚ)
    (k : String × String) (t t' : TemporalTracking)
    (h : lookupA k e.active_trackings = some t)
    (h' : lookupA k
      (e.process_detection ot cam conf bbox tsOpt tid now).2.active_trackings = some t') :
    t'.status = t.status ∨ (t.status = .TRACKING ∧ t'.status = .STABLE) := by
  unfold TemporalDetectionEngine.process_detection at h'
  by_cases hc : conf < e.confidence_threshold
  · rw [if_pos hc] at h'
    rw [h] at h'
    injection h' with h''
    subst h''
    exact Or.inl rfl
  · rw [if_neg hc] at h'
    cases hL : lookupA (ot, cam) e.active_trackings with
    | none =>
      simp only [hL] at h'
      by_cases hk : (ot, cam) = k
      · subst hk
        rw [hL] at h
        cases h
      · split at h' <;>
          (rw [lookupA_upsertA_ne _ hk] at h'; rw [h] at h';
            injection h' with h''; subst h''; exact Or.inl rfl)
    | some t0 =>
      simp only [hL] at h'
      by_cases hk : (ot, cam) = k
      · subst hk
        rw [hL] at h
        injection h with h0
        subst h0
        split at h'
        next hcond =>
          rw [lookupA_upsertA_self] at h'
          injection h' with h''
          subst h''
          refine Or.inr ⟨?_, rfl⟩
          simpa [TemporalTracking.update_confidence] using hcond.1
        next hcond =>
          rw [lookupA_upsertA_self] at h'
          injection h' with h''
          subst h''
          left
          simp [TemporalTracking.update_confidence]
      · split at h' <;>
          (rw [lookupA_upsertA_ne _ hk] at h'; rw [h] at h';
            injection h' with h''; subst h''; exact Or.inl rfl)

theorem create_validation_request_status (e : TemporalDetectionEngine)
    (ot : String) (cam : Option String) (now : ℚ)
    (k : String × String) (t t' : TemporalTracking)
    (h : lookupA k e.active_trackings = some t)
    (h' : lookupA k
      (e.create_validation_request ot cam now).2.active_trackings = some t') :
    t'.status = t.status ∨
      (t.status = .STABLE ∧ t'.status = .PENDING_VALIDATION) := by
  unfold TemporalDetectionEngine.create_validation_request at h'
  simp only [] at h'
  split at h'
  · rw [h] at h'
    injection h' with h''
    subst h''
    exact Or.inl rfl
  · split at h'
    · rw [h] at h'
      injection h' with h''
      subst h''
      exact Or.inl rfl
    · rw [lookupA_map_ite
        (fun (a : String × String) (b : TemporalTracking) =>
          a.1 = ot ∧ ¬TemporalDetectionEngine.cam_filter_blocks cam a.2 ∧
            b.status = .STABLE)
        (fun _ b => { b with status := .PENDING_VALIDATION })] at h'
      rw [h] at h'
      injection h' with h''
      by_cases hct : k.1 = ot ∧
          ¬TemporalDetectionEngine.cam_filter_blocks cam k.2 ∧
          t.status = TrackingStatus.STABLE
      · simp only [if_pos hct] at h''
        subst h''
        exact Or.inr ⟨hct.2.2, rfl⟩
      · simp only [if_neg hct] at h''
        subst h''
        exact Or.inl rfl

theorem approve_validation_status (e : TemporalDetectionEngine)
    (vid admin : String) (persist : PersistOutcome) (now : ℚ)
    (k : String × String) (t t' : TemporalTracking)
    (h : lookupA k e.active_trackings = some t)
    (h' : lookupA k
      (e.approve_validation vid admin persist now).2.active_trackings = some t') :
    t'.status = t.status ∨
      (t.status = .PENDING_VALIDATION ∧ t'.status = .VALIDATED) := by
  unfold TemporalDetectionEngine.approve_validation at h'
  cases hL : lookupA vid e.pending_validations with
  | none =>
    simp only [hL] at h'
    rw [h] at h'
    injection h' with h''
    subst h''
    exact Or.inl rfl
  | some v =>
    simp only [hL] at h'
    split at h'
    · rw [h] at h'
      injection h' with h''
      subst h''
      exact Or.inl rfl
    · cases persist with
      | raised =>
        rw [h] at h'
        injection h' with h''
        subst h''
        exact Or.inl rfl
      | returned b =>
        rw [lookupA_map_ite
          (fun (a : String × String) (b : TemporalTracking) =>
            a.1 = v.object_type ∧ b.status = .PENDING_VALIDATION)
          (fun _ b => { b with status := .VALIDATED })] at h'
        rw [h] at h'
        injection h' with h''
        by_cases hct : k.1 = v.object_type ∧
            t.status = TrackingStatus.PENDING_VALIDATION
        · simp only [if_pos hct] at h''
          subst h''
          exact Or.inr ⟨hct.2, rfl⟩
        · simp only [if_neg hct] at h''
          subst h''
          exact Or.inl rfl

theorem reject_validation_status (e : TemporalDetectionEngine)
    (vid admin reason : String) (persist : PersistOutcome) (now : ℚ)
    (k : String × String) (t t' : TemporalTracking)
    (h : lookupA k e.active_trackings = some t)
    (h' : lookupA k
      (e.reject_validation vid admin reason persist now).2.active_trackings = some t') :
    t'.status = t.status ∨
      (t.status = .PENDING_VALIDATION ∧ t'.status = .REJECTED) := by
  unfold TemporalDetectionEngine.reject_validation at h'
  cases hL : lookupA vid e.pending_validations with
  | none =>
    simp only [hL] at h'
    rw [h] at h'
    injection h' with h''
    subst h''
    exact Or.inl rfl
  | some v =>
    simp only [hL] at h'
    split at h'
    · rw [h] at h'
      injection h' with h''
      subst h''
      exact Or.inl rfl
    · cases persist with
      | raised =>
        rw [h] at h'
        injection h' with h''
        subst h''
        exact Or.inl rfl
      | returned b =>
        rw [lookupA_map_ite
          (fun (a : String × String) (b : TemporalTracking) =>
            a.1 = v.object_type ∧ b.status = .PENDING_VALIDATION)
          (fun _ b =>
            { b with
              status := .REJECTED
              detection_events := []
              first_seen := now
              last_seen := now
              detection_count := 0
              total_confidence := 0
              avg_confidence := 0 })] at h'
        rw [h] at h'
        injection h' with h''
        by_cases hct : k.1 = v.object_type ∧
            t.status = TrackingStatus.PENDING_VALIDATION
        · simp only [if_pos hct] at h''
          subst h''
          exact Or.inr ⟨hct.2, rfl⟩
        · simp only [if_neg hct] at h''
          subst h''
          exact Or.inl rfl

theorem check_alerts_trackings_unchanged (e : TemporalDetectionEngine) (now : ℚ) :
    (e.check_alerts now).2.active_trackings = e.active_trackings := rfl

/-! ### Alert lemmas -/

theorem alert_due_spec (d : ℤ) (now : ℚ) (v : Validation) :
    TemporalDetectionEngine.alert_due d now v = true ↔
      v.status = "pending" ∧ v.alert_sent_at = none ∧
        (now - v.created_at) / 3600 ≥ (d : ℚ) := by
  simp [TemporalDetectionEngine.alert_due, and_assoc]

theorem mem_check_alerts (e : TemporalDetectionEngine) (now : ℚ) (v : Validation) :
    v ∈ (e.check_alerts now).1 ↔
      ∃ p ∈ e.pending_validations,
        TemporalDetectionEngine.alert_due e.alert_delay_hours now p.2 = true ∧
        v = { p.2 with alert_sent_at := some now } := by
  show v ∈ e.pending_validations.filterMap _ ↔ _
  rw [List.mem_filterMap]
  constructor
  · rintro ⟨p, hp, hf⟩
    by_cases hd : TemporalDetectionEngine.alert_due e.alert_delay_hours now p.2 = true
    · rw [if_pos hd] at hf
      injection hf with hf'
      exact ⟨p, hp, hd, hf'.symm⟩
    · rw [if_neg hd] at hf
      cases hf
  · rintro ⟨p, hp, hd, rfl⟩
    exact ⟨p, hp, by rw [if_pos hd]⟩

theorem check_alerts_post (e : TemporalDetectionEngine) (now : ℚ) :
    (e.check_alerts now).2.pending_validations =
      e.pending_validations.map (fun p =>
        if TemporalDetectionEngine.alert_due e.alert_delay_hours now p.2 then
          (p.1, { p.2 with alert_sent_at := some now })
        else p) := rfl

theorem check_alerts_delay (e : TemporalDetectionEngine) (now : ℚ) :
    (e.check_alerts now).2.alert_delay_hours = e.alert_delay_hours := rfl

theorem check_alerts_keys (e : TemporalDetectionEngine) (now : ℚ) :
    (e.check_alerts now).2.pending_validations.map Prod.fst =
      e.pending_validations.map Prod.fst := by
  rw [check_alerts_post, List.map_map]
  apply List.map_congr_left
  intro p _
  by_cases hd : TemporalDetectionEngine.alert_due e.alert_delay_hours now p.2 = true <;>
    simp [hd]

theorem check_alerts_id_coherent (e : TemporalDetectionEngine) (now : ℚ)
    (hid : ∀ p ∈ e.pending_validations, p.1 = p.2.id) :
    ∀ p ∈ (e.check_alerts now).2.pending_validations, p.1 = p.2.id := by
  rw [check_alerts_post]
  intro p hp
  rcases List.mem_map.mp hp with ⟨q, hq, rfl⟩
  by_cases hd : TemporalDetectionEngine.alert_due e.alert_delay_hours now q.2 = true <;>
    simp [hd, hid q hq]

theorem ids_of_due (d : ℤ) (now : ℚ) :
    ∀ l : List (String × Validation),
      (∀ p ∈ l, p.1 = p.2.id) →
      (l.filterMap (fun p =>
          if TemporalDetectionEngine.alert_due d now p.2 then
            some { p.2 with alert_sent_at := some now }
          else none)).map Validation.id =
        (l.filter (fun p =>
          TemporalDetectionEngine.alert_due d now p.2)).map Prod.fst
  | [], _ => rfl
  | p :: ps, hid => by
    have hid' : ∀ q ∈ ps, q.1 = q.2.id := fun q hq => hid q (List.mem_cons_of_mem p hq)
    by_cases hd : TemporalDetectionEngine.alert_due d now p.2 = true <;>
      simp [hd, ids_of_due d now ps hid', (hid p (List.mem_cons_self p ps)).symm]

theorem eq_of_fst_eq {α β : Type} [DecidableEq α] :
    ∀ {l : List (α × β)} {p q : α × β},
      (l.map Prod.fst).Nodup → p ∈ l → q ∈ l → p.1 = q.1 → p = q
  | a :: l, p, q, hnd, hp, hq, he => by
    rw [List.map_cons, List.nodup_cons] at hnd
    rcases List.mem_cons.mp hp with rfl | hp' <;>
      rcases List.mem_cons.mp hq with h | hq'
    · exact h.symm
    · have hm : q.1 ∈ l.map Prod.fst := List.mem_map_of_mem Prod.fst hq'
      rw [← he] at hm
      exact absurd hm hnd.1
    · subst h
      have hm : p.1 ∈ l.map Prod.fst := List.mem_map_of_mem Prod.fst hp'
      rw [he] at hm
      exact absurd hm hnd.1
    · exact eq_of_fst_eq hnd.2 hp' hq' he

theorem lookupA_eq_of_mem {α β : Type} [DecidableEq α] :
    ∀ {l : List (α × β)} {p : α × β},
      (l.map Prod.fst).Nodup → p ∈ l → lookupA p.1 l = some p.2
  | a :: l, p, hnd, hp => by
    rcases List.mem_cons.mp hp with rfl | hp'
    · simp [lookupA]
    · have hne : a.1 ≠ p.1 := by
        intro hc
        exact (List.nodup_cons.mp hnd).1 (hc ▸ List.mem_map_of_mem Prod.fst hp')
      simp only [lookupA, if_neg hne]
      exact lookupA_eq_of_mem (List.nodup_cons.mp hnd).2 hp'

theorem check_alerts_seq_sound : ∀ (times : List ℚ) (e : TemporalDetectionEngine),
    ∀ v ∈ check_alerts_seq e times,
      v.status = "pending" ∧
      ∃ t ∈ times, v.alert_sent_at = some t ∧
        (t - v.created_at) / 3600 ≥ (e.alert_delay_hours : ℚ)
  | [], _, v, hv => by cases hv
  | t :: ts, e, v, hv => by
    rw [show check_alerts_seq e (t :: ts) =
        (e.check_alerts t).1 ++ check_alerts_seq (e.check_alerts t).2 ts from rfl,
      List.mem_append] at hv
    rcases hv with hv | hv
    · rcases (mem_check_alerts e t v).mp hv with ⟨p, _, hd, rfl⟩
      rcases (alert_due_spec _ _ _).mp hd with ⟨hst, _, hge⟩
      exact ⟨hst, t, List.mem_cons_self t ts, rfl, hge⟩
    · rcases check_alerts_seq_sound ts (e.check_alerts t).2 v hv with
        ⟨hst, t', ht', ha, hge⟩
      rw [check_alerts_delay] at hge
      exact ⟨hst, t', List.mem_cons_of_mem t ht', ha, hge⟩

theorem check_alerts_seq_nodup : ∀ (times : List ℚ) (e : TemporalDetectionEngine),
    (e.pending_validations.map Prod.fst).Nodup →
    (∀ p ∈ e.pending_validations, p.1 = p.2.id) →
    ((check_alerts_seq e times).map Validation.id).Nodup ∧
    ∀ i ∈ (check_alerts_seq e times).map Validation.id,
      ∃ p ∈ e.pending_validations, p.1 = i ∧ p.2.alert_sent_at = none
  | [], _, _, _ => ⟨List.nodup_nil, by intro i hi; cases hi⟩
  | t :: ts, e, hkeys, hid => by
    have hkeys' : ((e.check_alerts t).2.pending_validations.map Prod.fst).Nodup := by
      rw [check_alerts_keys]
      exact hkeys
    have hid' := check_alerts_id_coherent e t hid
    obtain ⟨ihnd, ihsub⟩ :=
      check_alerts_seq_nodup ts (e.check_alerts t).2 hkeys' hid'
    have hids1 : (e.check_alerts t).1.map Validation.id =
        (e.pending_validations.filter (fun p =>
          TemporalDetectionEngine.alert_due e.alert_delay_hours t p.2)).map Prod.fst :=
      ids_of_due e.alert_delay_hours t e.pending_validations hid
    rw [show check_alerts_seq e (t :: ts) =
        (e.check_alerts t).1 ++ check_alerts_seq (e.check_alerts t).2 ts from rfl,
      List.map_append]
    constructor
    · rw [List.nodup_append]
      refine ⟨?_, ihnd, ?_⟩
      · rw [hids1]
        exact ((List.filter_sublist _).map Prod.fst).nodup hkeys
      · intro i hi1 hi2
        rw [hids1] at hi1
        rcases List.mem_map.mp hi1 with ⟨p, hpf, rfl⟩
        have hp := List.mem_of_mem_filter hpf
        have hdue := List.of_mem_filter hpf
        rcases ihsub _ hi2 with ⟨p', hp', hpe, hnone⟩
        rw [check_alerts_post] at hp'
        rcases List.mem_map.mp hp' with ⟨q, hq, hgq⟩
        by_cases hdq : TemporalDetectionEngine.alert_due e.alert_delay_hours t q.2 = true
        · rw [if_pos hdq] at hgq
          rw [← hgq] at hnone
          exact Option.noConfusion hnone
        · rw [if_neg hdq] at hgq
          subst hgq
          have hqp : q = p := eq_of_fst_eq hkeys hq hp hpe
          rw [hqp] at hdq
          exact hdq hdue
    · intro i hi
      rw [List.mem_append] at hi
      rcases hi with hi | hi
      · rw [hids1] at hi
        rcases List.mem_map.mp hi with ⟨p, hpf, rfl⟩
        have hp := List.mem_of_mem_filter hpf
        have hdue := List.of_mem_filter hpf
        rcases (alert_due_spec _ _ _).mp hdue with ⟨_, hnone, _⟩
        exact ⟨p, hp, rfl, hnone⟩
      · rcases ihsub i hi with ⟨p', hp', hpe, hnone⟩
        rw [check_alerts_post] at hp'
        rcases List.mem_map.mp hp' with ⟨q, hq, hgq⟩
        by_cases hdq : TemporalDetectionEngine.alert_due e.alert_delay_hours t q.2 = true
        · rw [if_pos hdq] at hgq
          rw [← hgq] at hnone
          exact Option.noConfusion hnone
        · rw [if_neg hdq] at hgq
          subst hgq
          exact ⟨q, hq, hpe, hnone⟩

/-! ### Claim theorems -/

/-- C9: `broadcast(event)` delivers the event to every currently
registered subscriber whose delivery does not fail; a failing
subscriber is removed from the subscriber set, every other subscriber
still receives the event, and the failure is swallowed (the embedded
loop catches each `send_text` error, so `broadcast` is a total function
returning no error to its caller). -/
theorem C9_broadcast_failure_isolated (conns : List String)
    (fails : String → Bool) (hnd : conns.Nodup) :
    broadcast conns fails =
      (conns.filter (fun c => !(fails c)), conns.filter (fun c => !(fails c))) := by
  unfold broadcast
  by_cases h : conns.isEmpty
  · rw [List.isEmpty_iff] at h
    subst h
    rfl
  · rw [if_neg h, broadcast_loop_eq]
    dsimp only
    rw [foldl_erase_eq_filter _ _ hnd]
    refine Prod.ext rfl ?_
    apply List.filter_congr
    intro c hc
    cases hfc : fails c
    · have : c ∉ conns.filter fails := by
        simp [List.mem_filter, hfc]
      simp [List.contains, List.elem_iff, this]
    · have : c ∈ conns.filter fails := by
        simp [List.mem_filter, hfc, hc]
      simp [List.contains, List.elem_iff, this]

/-- C9 witness: three subscribers, the middle one failing: the other
two receive the event and the failing one is dropped from the set. -/
theorem C9_broadcast_failure_isolated_witness :
    (["alice", "bob", "carol"] : List String).Nodup ∧
    broadcast ["alice", "bob", "carol"] (fun c => c == "bob") =
      (["alice", "carol"], ["alice", "carol"]) :=
  ⟨by decide,
    by rw [C9_broadcast_failure_isolated _ _ (by decide)]; decide⟩

/-- C10: `count_stable_objects` and `calculate_stock_delta` are pure
queries: their method bodies assign to no engine field, so the embedded
calls return the engine — tracking map, every tracking's fields, the
validated-stock map and the pending-validations map — entirely
unchanged. -/
theorem C10_queries_leave_engine_unchanged (e : TemporalDetectionEngine)
    (object_type : String) (camera_id : Option String) :
    (e.count_stable_objects_run object_type camera_id).2 = e ∧
    (e.calculate_stock_delta_run object_type camera_id).2 = e ∧
    applyOp e (.countQuery object_type camera_id) = e ∧
    applyOp e (.deltaQuery object_type camera_id) = e :=
  ⟨rfl, rfl, rfl, rfl⟩

/-- C5 counterexample: a detection below the confidence threshold
(0.5 < 0.60 on a fresh engine) makes `process_detection` return the
Python value `None` — not the string `"ignored"` the claim states. -/
theorem C5_counterexample_returns_none :
    engine0.process_detection "souris" "cam1" (1 / 2) (0, 0, 1, 1) none none 0 =
      (none, engine0) ∧
    (engine0.process_detection "souris" "cam1" (1 / 2) (0, 0, 1, 1) none none 0).1 ≠
      some "ignored" := by
  have h : engine0.process_detection "souris" "cam1" (1 / 2) (0, 0, 1, 1) none none 0 =
      (none, engine0) := by
    norm_num [TemporalDetectionEngine.process_detection, engine0]
  exact ⟨h, by rw [h]; simp⟩

/-- C5 amended: for every detection with confidence strictly below the
configured threshold, `process_detection` returns `None` and leaves the
engine entirely unchanged — in particular it creates no tracking for a
previously-unseen key. -/
theorem C5_low_confidence_fully_ignored (e : TemporalDetectionEngine)
    (object_type camera_id : String) (confidence : ℚ)
    (bbox_coords : ℚ × ℚ × ℚ × ℚ) (timestamp : Option ℚ)
    (tracking_id : Option String) (now : ℚ)
    (h : confidence < e.confidence_threshold) :
    e.process_detection object_type camera_id confidence bbox_coords
      timestamp tracking_id now = (none, e) := by
  simp [TemporalDetectionEngine.process_detection, h]

/-- C5 witness: confidence 0.5 on a fresh engine (threshold 0.60) is
below the threshold and the call returns `None` with the engine
unchanged. -/
theorem C5_low_confidence_fully_ignored_witness :
    (1 / 2 : ℚ) < engine0.confidence_threshold ∧
    engine0.process_detection "souris" "cam1" (1 / 2) (0, 0, 1, 1) none none 0 =
      (none, engine0) :=
  ⟨by norm_num [engine0],
    C5_low_confidence_fully_ignored engine0 "souris" "cam1" (1 / 2) (0, 0, 1, 1)
      none none 0 (by norm_num [engine0])⟩

/-- C8: `remove_camera` on a registered camera returns success and
discards the worker and its configuration — but it never drops any
zone: `config` is fetched from `camera_configs` after the camera's
entry was deleted from it, so the zone-cleanup branch is dead and
`zones` is returned unchanged even when the removed camera was the only
one referencing its zone.  (Key-uniqueness of the dictionaries is the
standing Python-dict invariant.) -/
theorem C8_remove_camera_never_drops_zone (m : MultiCameraManager)
    (camera_id : String)
    (hc : (m.cameras.map Prod.fst).Nodup)
    (hk : (m.camera_configs.map Prod.fst).Nodup)
    (hreg : (lookupA camera_id m.cameras).isSome) :
    (m.remove_camera camera_id).1 = true ∧
    lookupA camera_id (m.remove_camera camera_id).2.cameras = none ∧
    lookupA camera_id (m.remove_camera camera_id).2.camera_configs = none ∧
    (m.remove_camera camera_id).2.zones = m.zones := by
  cases heq : lookupA camera_id m.cameras with
  | none => rw [heq] at hreg; simp at hreg
  | some w =>
    unfold MultiCameraManager.remove_camera
    rw [heq]
    simp [lookupA_eraseA_self camera_id m.camera_configs hk,
      lookupA_eraseA_self camera_id m.cameras hc]

/-- C8 witness: `manager1` has one camera `CAM1` whose configuration is
the only reference to zone `Z1`; removing `CAM1` succeeds, discards the
worker and configuration, yet the orphaned zone `Z1` is still in the
zone map. -/
theorem C8_remove_camera_never_drops_zone_witness :
    (manager1.cameras.map Prod.fst).Nodup ∧
    (manager1.camera_configs.map Prod.fst).Nodup ∧
    (lookupA "CAM1" manager1.cameras).isSome ∧
    ((manager1.remove_camera "CAM1").1 = true ∧
      lookupA "CAM1" (manager1.remove_camera "CAM1").2.cameras = none ∧
      lookupA "CAM1" (manager1.remove_camera "CAM1").2.camera_configs = none ∧
      (manager1.remove_camera "CAM1").2.zones = manager1.zones) :=
  ⟨by decide, by decide, by decide,
    C8_remove_camera_never_drops_zone manager1 "CAM1"
      (by decide) (by decide) (by decide)⟩

/-- C6: a successful `reject_validation` of a pending request resets
every matching tracking (same object type, status
`PENDING_VALIDATION`): afterwards its event log is empty, its detection
count, total confidence and average confidence are zero, and its
first-seen equals its last-seen, both reset to now. -/
theorem C6_reject_resets_matching_trackings (e : TemporalDetectionEngine)
    (validation_id admin_id reason : String) (b : Bool) (now : ℚ)
    (v : Validation)
    (hv : lookupA validation_id e.pending_validations = some v)
    (hp : v.status = "pending") :
    (e.reject_validation validation_id admin_id reason (.returned b) now).1 = true ∧
    ∀ k t, lookupA k e.active_trackings = some t →
      k.1 = v.object_type → t.status = .PENDING_VALIDATION →
      lookupA k
        (e.reject_validation validation_id admin_id reason (.returned b) now).2.active_trackings =
      some { t with
        status := .REJECTED
        detection_events := []
        first_seen := now
        last_seen := now
        detection_count := 0
        total_confidence := 0
        avg_confidence := 0 } := by
  unfold TemporalDetectionEngine.reject_validation
  rw [hv]
  simp only [hp, ne_eq, not_true_eq_false, if_false, ite_false]
  constructor
  · trivial
  · intro k t ht hk hs
    rw [lookupA_map_ite
        (fun (a : String × String) (b : TemporalTracking) =>
          a.1 = v.object_type ∧ b.status = .PENDING_VALIDATION)
        (fun _ b =>
          { b with
            status := .REJECTED
            detection_events := []
            first_seen := now
            last_seen := now
            detection_count := 0
            total_confidence := 0
            avg_confidence := 0 })]
    rw [ht]
    simp [hk, hs]

/-- C6 witness: rejecting the pending request of `engine3` resets its
single matching tracking at time 42. -/
theorem C6_reject_resets_matching_trackings_witness :
    lookupA "VAL-souris-1" engine3.pending_validations = some val_pending1 ∧
    val_pending1.status = "pending" ∧
    ((engine3.reject_validation "VAL-souris-1" "admin" "flou" (.returned true) 42).1 = true ∧
      ∀ k t, lookupA k engine3.active_trackings = some t →
        k.1 = val_pending1.object_type → t.status = .PENDING_VALIDATION →
        lookupA k
          (engine3.reject_validation "VAL-souris-1" "admin" "flou" (.returned true) 42).2.active_trackings =
        some { t with
          status := .REJECTED
          detection_events := []
          first_seen := 42
          last_seen := 42
          detection_count := 0
          total_confidence := 0
          avg_confidence := 0 }) :=
  ⟨rfl, rfl,
    C6_reject_resets_matching_trackings engine3 "VAL-souris-1" "admin" "flou"
      true 42 val_pending1 rfl rfl⟩

/-- C1: on an accepted detection whose key's tracking is in status
`TRACKING` (and carries the engine's configured stability duration),
`process_detection` transitions the tracking to `STABLE` and returns
`"stable"` exactly when the elapsed duration — last-seen (updated to
the event's timestamp) minus first-seen — is at least the configured
stability duration in minutes, and not before; otherwise it returns
`"tracking"` and the status stays `TRACKING`. -/
theorem C1_tracking_becomes_stable_iff_duration (e : TemporalDetectionEngine)
    (object_type camera_id : String) (confidence : ℚ)
    (bbox_coords : ℚ × ℚ × ℚ × ℚ) (timestamp : Option ℚ)
    (tracking_id : Option String) (now : ℚ)
    (hconf : ¬ confidence < e.confidence_threshold)
    (hstat : (e.pre_tracking object_type camera_id (timestamp.getD now)).status = .TRACKING)
    (hthr : (e.pre_tracking object_type camera_id (timestamp.getD now)).stability_threshold_minutes =
      e.stability_duration_minutes) :
    let ts := timestamp.getD now
    let t0 := e.pre_tracking object_type camera_id ts
    let r := e.process_detection object_type camera_id confidence bbox_coords
      timestamp tracking_id now
    ((ts - t0.first_seen) / 60 ≥ (e.stability_duration_minutes : ℚ) →
      r.1 = some "stable" ∧
      (lookupA (object_type, camera_id) r.2.active_trackings).map
        TemporalTracking.status = some .STABLE) ∧
    (¬ (ts - t0.first_seen) / 60 ≥ (e.stability_duration_minutes : ℚ) →
      r.1 = some "tracking" ∧
      (lookupA (object_type, camera_id) r.2.active_trackings).map
        TemporalTracking.status = some .TRACKING) := by
  intro ts t0 r
  have hr : r = e.process_detection object_type camera_id confidence bbox_coords
      timestamp tracking_id now := rfl
  unfold TemporalDetectionEngine.process_detection at hr
  rw [if_neg hconf] at hr
  cases hL : lookupA (object_type, camera_id) e.active_trackings with
  | none =>
    have ht0 : t0 = TemporalDetectionEngine.new_tracking object_type camera_id ts
        e.stability_duration_minutes := by
      show e.pre_tracking object_type camera_id ts = _
      unfold TemporalDetectionEngine.pre_tracking
      rw [hL]
    simp only [hL] at hr
    by_cases hst : (ts - t0.first_seen) / 60 ≥ (e.stability_duration_minutes : ℚ)
    · refine ⟨fun _ => ?_, fun h => absurd hst h⟩
      rw [hr]
      simp only [TemporalTracking.update_confidence, TemporalTracking.is_stable,
        TemporalTracking.get_duration_minutes]
      rw [if_pos ?side]
      · simp [lookupA_upsertA_self]
      · refine ⟨rfl, ?_⟩
        simp only [decide_eq_true_eq, ge_iff_le]
        rw [ht0] at hst
        simpa [TemporalDetectionEngine.new_tracking] using hst
    · refine ⟨fun h => absurd h hst, fun _ => ?_⟩
      rw [hr]
      simp only [TemporalTracking.update_confidence, TemporalTracking.is_stable,
        TemporalTracking.get_duration_minutes]
      rw [if_neg ?side2]
      · simp [lookupA_upsertA_self, ht0, TemporalDetectionEngine.new_tracking]
      · rintro ⟨-, hdec⟩
        rw [ht0] at hst
        refine hst ?_
        simp only [decide_eq_true_eq, ge_iff_le] at hdec
        simp only [TemporalDetectionEngine.new_tracking] at hdec ⊢
        exact hdec
  | some t =>
    have ht0 : t0 = t := by
      show e.pre_tracking object_type camera_id ts = _
      unfold TemporalDetectionEngine.pre_tracking
      rw [hL]
    have hstat' : t.status = .TRACKING := by rw [← ht0]; exact hstat
    have hthr' : t.stability_threshold_minutes = e.stability_duration_minutes := by
      rw [← ht0]; exact hthr
    simp only [hL] at hr
    by_cases hst : (ts - t0.first_seen) / 60 ≥ (e.stability_duration_minutes : ℚ)
    · refine ⟨fun _ => ?_, fun h => absurd hst h⟩
      rw [hr]
      simp only [TemporalTracking.update_confidence, TemporalTracking.is_stable,
        TemporalTracking.get_duration_minutes]
      rw [if_pos ?side3]
      · simp [lookupA_upsertA_self]
      · refine ⟨hstat', ?_⟩
        simp only [decide_eq_true_eq, ge_iff_le, hthr']
        rw [ht0] at hst
        exact hst
    · refine ⟨fun h => absurd h hst, fun _ => ?_⟩
      rw [hr]
      simp only [TemporalTracking.update_confidence, TemporalTracking.is_stable,
        TemporalTracking.get_duration_minutes]
      rw [if_neg ?side4]
      · simp [lookupA_upsertA_self, hstat']
      · rintro ⟨-, hdec⟩
        simp only [decide_eq_true_eq, ge_iff_le, hthr'] at hdec
        rw [ht0] at hst
        exact hst hdec

/-- C1 witness: a detection of confidence 1 on `engine1` at timestamp
3600 s, exactly 60 minutes after the tracking's first-seen: the elapsed
duration reaches the configured 60-minute stability duration, so the
call returns `"stable"` and the tracking becomes `STABLE`. -/
theorem C1_tracking_becomes_stable_iff_duration_witness :
    (¬ (1 : ℚ) < engine1.confidence_threshold) ∧
    (engine1.pre_tracking "souris" "cam1" ((some (3600 : ℚ)).getD 3600)).status = .TRACKING ∧
    (engine1.pre_tracking "souris" "cam1" ((some (3600 : ℚ)).getD 3600)).stability_threshold_minutes =
      engine1.stability_duration_minutes ∧
    (let ts := (some (3600 : ℚ)).getD 3600
     let t0 := engine1.pre_tracking "souris" "cam1" ts
     let r := engine1.process_detection "souris" "cam1" 1 (0, 0, 1, 1)
       (some 3600) none 3600
     ((ts - t0.first_seen) / 60 ≥ (engine1.stability_duration_minutes : ℚ) →
       r.1 = some "stable" ∧
       (lookupA ("souris", "cam1") r.2.active_trackings).map
         TemporalTracking.status = some .STABLE) ∧
     (¬ (ts - t0.first_seen) / 60 ≥ (engine1.stability_duration_minutes : ℚ) →
       r.1 = some "tracking" ∧
       (lookupA ("souris", "cam1") r.2.active_trackings).map
         TemporalTracking.status = some .TRACKING)) :=
  ⟨by norm_num [engine1], rfl, rfl,
    C1_tracking_becomes_stable_iff_duration engine1 "souris" "cam1" 1 (0, 0, 1, 1)
      (some 3600) none 3600 (by norm_num [engine1]) rfl rfl⟩

/-- C3: evaluation of `approve_validation` on `engine3`.  An unknown
id, an already-processed request and a raised persistence call all fail
with the engine unchanged, and a successful approval sets the validated
stock to the proposed quantity and validates the matching trackings.
But when the persistence layer reports failure by returning `False`
(`ValidationService.approve_request` returns a boolean instead of
raising), the engine discards that value: the call still returns
success and still mutates the in-memory state — persistence failure is
not all-or-nothing, contradicting the claim. -/
theorem C3_approve_validation_evaluation :
    engine3.approve_validation "inconnu" "admin" (.returned true) 10 =
      (false, engine3) ∧
    engine3.approve_validation "VAL-souris-1" "admin" .raised 10 =
      (false, engine3) ∧
    (let e1 := (engine3.approve_validation "VAL-souris-1" "admin" (.returned true) 10).2
     e1.approve_validation "VAL-souris-1" "admin2" (.returned true) 20 = (false, e1)) ∧
    lookupA "souris"
      (engine3.approve_validation "VAL-souris-1" "admin" (.returned true) 10).2.validated_stock =
      some 5 ∧
    (lookupA ("souris", "cam1")
      (engine3.approve_validation "VAL-souris-1" "admin" (.returned true) 10).2.active_trackings).map
      TemporalTracking.status = some .VALIDATED ∧
    (engine3.approve_validation "VAL-souris-1" "admin" (.returned false) 10).1 = true ∧
    lookupA "souris"
      (engine3.approve_validation "VAL-souris-1" "admin" (.returned false) 10).2.validated_stock =
      some 5 ∧
    (engine3.approve_validation "VAL-souris-1" "admin" (.returned false) 10).2.validated_stock ≠
      engine3.validated_stock := by
  refine ⟨?_, ?_, ?_, ?_, ?_, ?_, ?_, ?_⟩ <;>
    simp [TemporalDetectionEngine.approve_validation, engine3, val_pending1,
      tracking_pending1, tracking_stable1, lookupA, upsertA]

/-- C4 counterexample: with the camera filter `some ""` (an empty
camera-id string is falsy in Python, so the source skips the filter),
`count_stable_objects` on `engine4` counts the `cam1` tracking's recent
event and returns 1, while the claim — camera must match whenever a
camera id is given — predicts 0. -/
theorem C4_counterexample_empty_camera_id :
    engine4.count_stable_objects "souris" (some "") = 1 ∧
    count_stable_objects_claimed engine4 "souris" (some "") = 0 ∧
    engine4.count_stable_objects "souris" (some "") ≠
      count_stable_objects_claimed engine4 "souris" (some "") := by
  have h1 : TemporalDetectionEngine.window_count 60 tracking_stable1 = 1 := by
    norm_num [TemporalDetectionEngine.window_count, tracking_stable1]
  refine ⟨?_, ?_, ?_⟩ <;>
    simp [TemporalDetectionEngine.count_stable_objects, count_stable_objects_claimed,
      engine4, TemporalDetectionEngine.cam_filter_blocks, h1,
      show tracking_stable1.status = TrackingStatus.STABLE from rfl,
      show tracking_stable1.camera_id = "cam1" from rfl]

/-- C4 amended: `count_stable_objects` returns the sum, over every
tracking whose object type matches, whose camera matches whenever a
non-empty camera id is given (an empty or missing camera id disables
the filter), and whose status is `STABLE` or `PENDING_VALIDATION`, of
the number of events in that tracking's log whose age relative to that
tracking's last-seen is at most the stability duration in minutes — a
sliding-window count, not the lifetime detection total. -/
theorem C4_count_is_sliding_window_sum (e : TemporalDetectionEngine)
    (object_type : String) (camera_id : Option String) :
    e.count_stable_objects object_type camera_id =
      ((e.active_trackings.filter (fun p =>
          (p.1.1 == object_type) &&
          (camera_id.all (fun c => (c == "") || (p.1.2 == c))) &&
          ((p.2.status == TrackingStatus.STABLE) ||
            (p.2.status == TrackingStatus.PENDING_VALIDATION)))).map
        (fun p => (p.2.detection_events.filter (fun ev =>
            (p.2.last_seen - ev.timestamp) / 60 ≤
              (e.stability_duration_minutes : ℚ))).length)).sum := by
  have hstep : (fun (count : ℕ) (p : (String × String) × TemporalTracking) =>
      if p.1.1 ≠ object_type then count
      else if TemporalDetectionEngine.cam_filter_blocks camera_id p.1.2 then count
      else if p.2.status = .STABLE ∨ p.2.status = .PENDING_VALIDATION then
        count + TemporalDetectionEngine.window_count e.stability_duration_minutes p.2
      else count) =
      (fun count p =>
        count +
          (if p.1.1 = object_type ∧
              ¬ TemporalDetectionEngine.cam_filter_blocks camera_id p.1.2 ∧
              (p.2.status = TrackingStatus.STABLE ∨
                p.2.status = TrackingStatus.PENDING_VALIDATION) then
            TemporalDetectionEngine.window_count e.stability_duration_minutes p.2
          else 0)) := by
    funext count p
    by_cases h1 : p.1.1 = object_type <;>
      by_cases h2 : TemporalDetectionEngine.cam_filter_blocks camera_id p.1.2 = true <;>
      by_cases h3 : p.2.status = TrackingStatus.STABLE ∨
        p.2.status = TrackingStatus.PENDING_VALIDATION <;>
      simp [h1, h2, h3]
  unfold TemporalDetectionEngine.count_stable_objects
  rw [hstep, foldl_add_eq_sum, Nat.zero_add, sum_map_ite]
  refine congrArg List.sum (congrArg (List.map _) (List.filter_congr ?_))
  intro p _
  rw [← not_cam_filter_blocks]
  by_cases h1 : p.1.1 = object_type <;>
    cases h2 : TemporalDetectionEngine.cam_filter_blocks camera_id p.1.2 <;>
    by_cases h3 : p.2.status = TrackingStatus.STABLE <;>
    by_cases h4 : p.2.status = TrackingStatus.PENDING_VALIDATION <;>
    simp [h1, h2, h3, h4]

/-- C2 counterexample: rejecting the pending request of `engine3` sets
the matching tracking's status to `REJECTED` — not back to a fresh
`TRACKING` state — and a later accepted detection whose elapsed
duration exceeds the stability threshold (the post tracking satisfies
`is_stable`) still returns `"tracking"` and leaves the status
`REJECTED`: the tracking can never become `STABLE` again. -/
theorem C2_counterexample_rejected_is_terminal :
    (engine3.reject_validation "VAL-souris-1" "admin" "why" (.returned true) 100).1 =
      true ∧
    (lookupA ("souris", "cam1") engine_rejected.active_trackings).map
      TemporalTracking.status = some .REJECTED ∧
    TrackingStatus.REJECTED ≠ TrackingStatus.TRACKING ∧
    (engine_rejected.process_detection "souris" "cam1" 1 (0, 0, 1, 1)
      (some 7300) none 7300).1 = some "tracking" ∧
    (lookupA ("souris", "cam1")
      (engine_rejected.process_detection "souris" "cam1" 1 (0, 0, 1, 1)
        (some 7300) none 7300).2.active_trackings).map
      TemporalTracking.status = some .REJECTED ∧
    (lookupA ("souris", "cam1")
      (engine_rejected.process_detection "souris" "cam1" 1 (0, 0, 1, 1)
        (some 7300) none 7300).2.active_trackings).map
      TemporalTracking.is_stable = some true := by
  have hq1 : ¬ ((1 : ℚ) < 3 / 5) := by norm_num
  have hq2 : (((7300 : ℚ) - 100) / 60 ≥ ((60 : ℤ) : ℚ)) := by norm_num
  refine ⟨?_, ?_, ?_, ?_, ?_, ?_⟩ <;>
    simp [TemporalDetectionEngine.reject_validation,
      TemporalDetectionEngine.process_detection, engine_rejected, engine3,
      val_pending1, tracking_pending1, tracking_stable1, lookupA, upsertA,
      TemporalTracking.update_confidence, TemporalTracking.is_stable,
      TemporalTracking.get_duration_minutes, hq1, hq2] <;>
    norm_num

/-- C2 amended: every engine operation only advances a tracking's
status forward along
`TRACKING → STABLE → PENDING_VALIDATION → {VALIDATED, REJECTED}`.
Rejection transitions matching trackings to `REJECTED` (clearing their
event logs and counters) but does not return them to `TRACKING`, so
`REJECTED` is terminal: no operation ever moves a tracking out of it. -/
theorem C2_status_advances_forward (e : TemporalDetectionEngine)
    (op : EngineOp) (k : String × String) (t t' : TemporalTracking)
    (h : lookupA k e.active_trackings = some t)
    (h' : lookupA k (applyOp e op).active_trackings = some t') :
    allowed_transition t.status t'.status ∧
    (t.status = .REJECTED → t'.status = .REJECTED) := by
  have hmain : allowed_transition t.status t'.status := by
    cases op with
    | detect ot cam conf bbox ts tid now =>
      rcases process_detection_status e ot cam conf bbox ts tid now k t t' h h' with
        h1 | ⟨h1, h2⟩
      · exact Or.inl h1
      · exact Or.inr (Or.inl ⟨h1, h2⟩)
    | createRequest ot cam now =>
      rcases create_validation_request_status e ot cam now k t t' h h' with
        h1 | ⟨h1, h2⟩
      · exact Or.inl h1
      · exact Or.inr (Or.inr (Or.inl ⟨h1, h2⟩))
    | approve vid admin persist now =>
      rcases approve_validation_status e vid admin persist now k t t' h h' with
        h1 | ⟨h1, h2⟩
      · exact Or.inl h1
      · exact Or.inr (Or.inr (Or.inr ⟨h1, Or.inl h2⟩))
    | reject vid admin reason persist now =>
      rcases reject_validation_status e vid admin reason persist now k t t' h h' with
        h1 | ⟨h1, h2⟩
      · exact Or.inl h1
      · exact Or.inr (Or.inr (Or.inr ⟨h1, Or.inr h2⟩))
    | alerts now =>
      rw [show applyOp e (.alerts now) = (e.check_alerts now).2 from rfl,
        check_alerts_trackings_unchanged] at h'
      rw [h] at h'
      injection h' with h''
      subst h''
      exact Or.inl rfl
    | countQuery ot cam =>
      rw [show applyOp e (.countQuery ot cam) = e from rfl] at h'
      rw [h] at h'
      injection h' with h''
      subst h''
      exact Or.inl rfl
    | deltaQuery ot cam =>
      rw [show applyOp e (.deltaQuery ot cam) = e from rfl] at h'
      rw [h] at h'
      injection h' with h''
      subst h''
      exact Or.inl rfl
  refine ⟨hmain, fun hrej => ?_⟩
  rcases hmain with h1 | ⟨h1, _⟩ | ⟨h1, _⟩ | ⟨h1, _⟩
  · rw [h1, hrej]
  all_goals (rw [hrej] at h1; cases h1)

/-- C2 witness: rejecting the pending request of `engine3` moves the
matching tracking from `PENDING_VALIDATION` to `REJECTED`, an allowed
forward transition. -/
theorem C2_status_advances_forward_witness :
    lookupA ("souris", "cam1") engine3.active_trackings = some tracking_pending1 ∧
    lookupA ("souris", "cam1")
      (applyOp engine3
        (.reject "VAL-souris-1" "admin" "why" (.returned true) 100)).active_trackings =
      some { tracking_pending1 with
        status := .REJECTED
        detection_events := []
        first_seen := 100
        last_seen := 100
        detection_count := 0
        total_confidence := 0
        avg_confidence := 0 } ∧
    (allowed_transition tracking_pending1.status
      ({ tracking_pending1 with
        status := TrackingStatus.REJECTED
        detection_events := []
        first_seen := 100
        last_seen := 100
        detection_count := 0
        total_confidence := 0
        avg_confidence := 0 } : TemporalTracking).status ∧
      (tracking_pending1.status = .REJECTED →
        ({ tracking_pending1 with
          status := TrackingStatus.REJECTED
          detection_events := []
          first_seen := 100
          last_seen := 100
          detection_count := 0
          total_confidence := 0
          avg_confidence := 0 } : TemporalTracking).status = .REJECTED)) :=
  ⟨rfl, rfl,
    C2_status_advances_forward engine3
      (.reject "VAL-souris-1" "admin" "why" (.returned true) 100)
      ("souris", "cam1") tracking_pending1 _ rfl rfl⟩

/-- C7: `check_alerts` returns exactly the still-pending requests whose
alert has not been sent and whose age reaches the configured delay,
marking each returned request's alert-sent time in the stored map; and
across any sequence of `check_alerts` calls, every returned request was
returned at a time at least the alert delay after its creation, and a
given request id is returned at most once. -/
theorem C7_check_alerts_once_after_delay (e : TemporalDetectionEngine)
    (now : ℚ) (times : List ℚ)
    (hkeys : (e.pending_validations.map Prod.fst).Nodup)
    (hid : ∀ p ∈ e.pending_validations, p.1 = p.2.id) :
    (∀ v ∈ (e.check_alerts now).1,
      v.status = "pending" ∧ v.alert_sent_at = some now ∧
      (now - v.created_at) / 3600 ≥ (e.alert_delay_hours : ℚ) ∧
      lookupA v.id (e.check_alerts now).2.pending_validations = some v) ∧
    (∀ p ∈ e.pending_validations, p.2.status = "pending" →
      p.2.alert_sent_at = none →
      (now - p.2.created_at) / 3600 ≥ (e.alert_delay_hours : ℚ) →
      { p.2 with alert_sent_at := some now } ∈ (e.check_alerts now).1) ∧
    (∀ v ∈ check_alerts_seq e times,
      ∃ t ∈ times, v.alert_sent_at = some t ∧
        (t - v.created_at) / 3600 ≥ (e.alert_delay_hours : ℚ)) ∧
    ((check_alerts_seq e times).map Validation.id).Nodup := by
  refine ⟨?_, ?_, ?_, (check_alerts_seq_nodup times e hkeys hid).1⟩
  · intro v hv
    rcases (mem_check_alerts e now v).mp hv with ⟨p, hp, hd, rfl⟩
    rcases (alert_due_spec _ _ _).mp hd with ⟨hst, _, hge⟩
    refine ⟨hst, rfl, hge, ?_⟩
    have hl : lookupA p.1 e.pending_validations = some p.2 :=
      lookupA_eq_of_mem hkeys hp
    have hvid : ({ p.2 with alert_sent_at := some now } : Validation).id = p.1 :=
      (hid p hp).symm
    rw [hvid, check_alerts_post,
      lookupA_map_ite
        (fun (_ : String) (w : Validation) =>
          TemporalDetectionEngine.alert_due e.alert_delay_hours now w = true)
        (fun _ w => { w with alert_sent_at := some now }),
      hl]
    simp [hd]
  · intro p hp hst hnone hge
    exact (mem_check_alerts e now _).mpr
      ⟨p, hp, (alert_due_spec _ _ _).mpr ⟨hst, hnone, hge⟩, rfl⟩
  · intro v hv
    rcases check_alerts_seq_sound times e v hv with ⟨_, t, ht, ha, hge⟩
    exact ⟨t, ht, ha, hge⟩

/-- C7 witness: on `engine3` (one pending request created at time 0,
alert delay 3 hours) at time 10801 s — just past the 3-hour delay — the
request is due, and a one-call sequence returns it once. -/
theorem C7_check_alerts_once_after_delay_witness :
    (engine3.pending_validations.map Prod.fst).Nodup ∧
    (∀ p ∈ engine3.pending_validations, p.1 = p.2.id) ∧
    ((∀ v ∈ (engine3.check_alerts 10801).1,
      v.status = "pending" ∧ v.alert_sent_at = some 10801 ∧
      (10801 - v.created_at) / 3600 ≥ (engine3.alert_delay_hours : ℚ) ∧
      lookupA v.id (engine3.check_alerts 10801).2.pending_validations = some v) ∧
    (∀ p ∈ engine3.pending_validations, p.2.status = "pending" →
      p.2.alert_sent_at = none →
      (10801 - p.2.created_at) / 3600 ≥ (engine3.alert_delay_hours : ℚ) →
      { p.2 with alert_sent_at := some 10801 } ∈ (engine3.check_alerts 10801).1) ∧
    (∀ v ∈ check_alerts_seq engine3 [10801],
      ∃ t ∈ [(10801 : ℚ)], v.alert_sent_at = some t ∧
        (t - v.created_at) / 3600 ≥ (engine3.alert_delay_hours : ℚ)) ∧
    ((check_alerts_seq engine3 [10801]).map Validation.id).Nodup) :=
  ⟨by decide, by decide,
    C7_check_alerts_once_after_delay engine3 10801 [10801]
      (by decide) (by decide)⟩

end Magasin
